import Mathlib

/-!
Shallow embedding of the NilCafe backend cart and order subsystem:
the handlers POST /orders/create and PUT /orders/:orderId/status from
routes/orders.js, the handlers POST /cart/save, GET /cart/:customerId and
DELETE /cart/:customerId from the cart router, and the Cart / Order /
Product / User mongoose schemas.

JavaScript values that may be absent (undefined or null) are modelled as
Option.  JavaScript string truthiness (undefined, null and the empty string
are falsy) is strTruthy; numeric truthiness (0 is falsy) is numTruthy.
MongoDB ObjectIds are modelled as strings; a well-formed id is a
24-character hexadecimal token, which is what mongoose ObjectId.isValid
accepts.  A findById or findOne whose argument cannot be cast to an
ObjectId rejects with a CastError, which the handlers catch and turn into a
500 response; this is modelled with Except DbErr.
-/

def hexChar (c : Char) : Bool :=
  c.isDigit || (('a' ≤ c) && (c ≤ 'f')) || (('A' ≤ c) && (c ≤ 'F'))

def isValidObjectId (s : String) : Bool :=
  (s.data.length == 24) && s.data.all hexChar

def strTruthy : Option String → Bool
  | none => false
  | some s => !s.isEmpty

def numTruthy : Option Int → Bool
  | none => false
  | some n => n != 0

/-- JavaScript a or-else b for two possibly absent strings. -/
def jsOrS (a b : Option String) : Option String :=
  if strTruthy a then a else b

/-- JavaScript a or-else d for a possibly absent string and a present default. -/
def strOrD (a : Option String) (d : String) : String :=
  match a with
  | some s => if s.isEmpty then d else s
  | none => d

/-- String interpolation of a possibly absent JavaScript value. -/
def jsShowOptStr : Option String → String
  | none => "undefined"
  | some s => s

structure Product where
  id : String
  name : String
  description : String
  price : Int
  image : String
  category : String
  isAvailable : Bool
deriving DecidableEq

structure User where
  id : String
  email : String
deriving DecidableEq

structure CartLine where
  productId : String
  name : String
  price : Int
  quantity : Int
  image : String
  description : String
  category : String
deriving DecidableEq

structure Cart where
  customerId : String
  items : List CartLine
deriving DecidableEq

structure OrderLine where
  productId : Option String
  name : Option String
  price : Option Int
  quantity : Option Int
deriving DecidableEq

structure Order where
  customerId : String
  items : List OrderLine
  totalPrice : Int
  status : String
  orderType : String
  deliveryAddress : Option String
  tableNumber : Option Int
  preparedBy : Option String
  deliveryPersonId : Option String
  paymentStatus : String
  email : String
  doorPhoto : Option String
deriving DecidableEq

/-- The durable document store: users, products, carts, and orders keyed by
their document id. -/
structure Store where
  users : List User
  products : List Product
  carts : List Cart
  orders : List (String × Order)
deriving DecidableEq

inductive DbErr
  | castError
deriving DecidableEq

/-- Product.findById: an undefined id queries for a null id and finds
nothing; a present but malformed id rejects with a CastError; a well-formed
id is looked up in the catalog. -/
def findProductJs (s : Store) (pid : Option String) : Except DbErr (Option Product) :=
  match pid with
  | none => .ok none
  | some p =>
    if isValidObjectId p then .ok (s.products.find? (fun q => q.id == p))
    else .error .castError

/-- User.findById on a string id: malformed ids reject with a CastError. -/
def findUser (s : Store) (cid : String) : Except DbErr (Option User) :=
  if isValidObjectId cid then .ok (s.users.find? (fun u => u.id == cid))
  else .error .castError

/-- Cart.findOne on customerId. -/
def findCart (carts : List Cart) (cid : String) : Option Cart :=
  carts.find? (fun c => c.customerId == cid)

/-- Cart.findOneAndDelete: removes the first cart of the customer, if any. -/
def deleteFirstCart (carts : List Cart) (cid : String) : List Cart :=
  match carts with
  | [] => []
  | c :: rest => if c.customerId == cid then rest else c :: deleteFirstCart rest cid

/-- Insertion of a new cart document under the unique index on customerId
declared in the Cart schema: a second cart for the same customer fails with
duplicate-key error code 11000. -/
def insertCart (carts : List Cart) (c : Cart) : Except Nat (List Cart) :=
  if carts.any (fun d => d.customerId == c.customerId) then .error 11000
  else .ok (carts ++ [c])

/-- Fetch-then-save update: replaces the items of the customer's cart. -/
def updateCartItems (carts : List Cart) (cid : String) (its : List CartLine) :
    List Cart :=
  match carts with
  | [] => []
  | c :: rest =>
    if c.customerId == cid then { c with items := its } :: rest
    else c :: updateCartItems rest cid its

/-- The cart persistence phase of POST /cart/save: find the customer's cart,
update it in place when present, otherwise insert a fresh document; a
duplicate-key failure of the insert is recovered by re-reading the cart and
updating it, and only when even the re-read finds nothing is the error
rethrown (modelled as none, which the handler turns into a 500).  The
interfere argument is the mutation a concurrent writer commits between the
initial findOne and the insert attempt. -/
def persistCart (carts : List Cart) (interfere : List Cart → List Cart)
    (cid : String) (its : List CartLine) : Option (List Cart) :=
  match findCart carts cid with
  | some _ => some (updateCartItems carts cid its)
  | none =>
    let carts1 := interfere carts
    match insertCart carts1 { customerId := cid, items := its } with
    | .ok cs => some cs
    | .error _ =>
      match findCart carts1 cid with
      | some _ => some (updateCartItems carts1 cid its)
      | none => none

/-- Atomic cart-collection operations of the store.  Any interleaving of
concurrently executing handlers is a sequence of these. -/
inductive CartOp
  | ins (c : Cart)
  | upd (cid : String) (its : List CartLine)
  | del (cid : String)

def applyCartOp (carts : List Cart) : CartOp → List Cart
  | .ins c =>
    match insertCart carts c with
    | .ok cs => cs
    | .error _ => carts
  | .upd cid its => updateCartItems carts cid its
  | .del cid => deleteFirstCart carts cid

def applyCartOps (carts : List Cart) (ops : List CartOp) : List Cart :=
  ops.foldl applyCartOp carts

/-- At most one cart document exists for the customer. -/
def atMostOneCart (carts : List Cart) (cid : String) : Prop :=
  (carts.filter (fun c => c.customerId == cid)).length ≤ 1

/-- A line item of the POST /cart/save request body. -/
structure CartItemReq where
  productId : Option String
  id : Option String
  name : Option String
  price : Option Int
  quantity : Option Int
  image : Option String
  description : Option String
  category : Option String
deriving DecidableEq

inductive SaveCartResult
  | customerIdRequired
  | serverError
  | customerNotFound
  | itemsNotArray
  | cleared (c : Cart)
  | productIdMissing (name : Option String)
  | invalidProductIdFormat (pid : String)
  | noValidItems
  | saved (c : Cart)
deriving DecidableEq

/-- The HTTP status the handler responds with for each outcome. -/
def SaveCartResult.statusCode : SaveCartResult → Nat
  | .customerIdRequired => 400
  | .serverError => 500
  | .customerNotFound => 404
  | .itemsNotArray => 400
  | .cleared _ => 200
  | .productIdMissing _ => 400
  | .invalidProductIdFormat _ => 400
  | .noValidItems => 400
  | .saved _ => 200

/-- The cart line built from a request item and the resolved product: the
client-submitted value is preferred field by field, falling back to the
product's current value; quantity defaults to 1 when absent or not
positive. -/
def formatLine (pid : String) (it : CartItemReq) (p : Product) : CartLine :=
  { productId := pid
    name := strOrD it.name (strOrD (some p.name) "Unknown Product")
    price := match it.price with
             | some v => v
             | none => p.price
    quantity := match it.quantity with
                | some q => if 0 < q then q else 1
                | none => 1
    image := strOrD it.image (strOrD (some p.image) "")
    description := strOrD it.description (strOrD (some p.description) "")
    category := strOrD it.category (strOrD (some p.category) "") }

/-- The item loop of POST /cart/save.  A missing productId (after the
or-else fallback to id) fails the whole request, as does a malformed one; a
well-formed productId whose product is not in the catalog only skips that
line; a formatted line with an empty name is also skipped. -/
def processItems (s : Store) : List CartItemReq → Except SaveCartResult (List CartLine)
  | [] => .ok []
  | it :: rest =>
    let pid := jsOrS it.productId it.id
    if ¬ strTruthy pid then .error (.productIdMissing it.name)
    else
      let pv := pid.getD ""
      if ¬ isValidObjectId pv then .error (.invalidProductIdFormat pv)
      else
        match s.products.find? (fun q => q.id == pv) with
        | none => processItems s rest
        | some p =>
          let line := formatLine pv it p
          if line.name.isEmpty then processItems s rest
          else
            match processItems s rest with
            | .error e => .error e
            | .ok ls => .ok (line :: ls)

/-- POST /cart/save. -/
def saveCart (s : Store) (customerId : Option String)
    (items : Option (List CartItemReq)) : SaveCartResult × Store :=
  if ¬ strTruthy customerId then (.customerIdRequired, s)
  else
    let cid := customerId.getD ""
    match findUser s cid with
    | .error _ => (.serverError, s)
    | .ok none => (.customerNotFound, s)
    | .ok (some _) =>
      match items with
      | none => (.itemsNotArray, s)
      | some [] =>
        (.cleared { customerId := cid, items := [] },
         { s with carts := deleteFirstCart s.carts cid })
      | some (it0 :: rest0) =>
        match processItems s (it0 :: rest0) with
        | .error e => (e, s)
        | .ok formatted =>
          if formatted = [] then (.noValidItems, s)
          else
            match persistCart s.carts (fun c => c) cid formatted with
            | some carts2 =>
              (.saved { customerId := cid, items := formatted },
               { s with carts := carts2 })
            | none => (.serverError, s)

inductive GetCartResult
  | okCart (customerId : String) (items : List CartLine)
  | serverError
deriving DecidableEq

def GetCartResult.statusCode : GetCartResult → Nat
  | .okCart _ _ => 200
  | .serverError => 500

/-- GET /cart/:customerId: a malformed id makes the findOne reject with a
CastError (500); otherwise the stored cart is returned, or a synthesized
empty cart when none exists. -/
def getCart (s : Store) (cid : String) : GetCartResult :=
  if isValidObjectId cid then
    match findCart s.carts cid with
    | some c => .okCart cid c.items
    | none => .okCart cid []
  else .serverError

/-- DELETE /cart/:customerId. -/
def clearCart (s : Store) (cid : String) : Store :=
  { s with carts := deleteFirstCart s.carts cid }

/-- An item of the POST /orders/create request body. -/
structure OrderItemReq where
  productId : Option String
  id : Option String
  name : Option String
  price : Option Int
  quantity : Option Int
deriving DecidableEq

structure CreateOrderReq where
  customerId : Option String
  items : Option (List OrderItemReq)
  totalPrice : Option Int
  orderType : Option String
  deliveryAddress : Option String
  tableNumber : Option Int
  email : Option String
  doorPhoto : Option String
deriving DecidableEq

inductive CreateOrderResult
  | fieldsRequired
  | invalidTotal
  | invalidOrderType
  | emailRequired
  | invalidEmail
  | addressRequired
  | tableRequired
  | serverError
  | customerNotFound
  | productNotFound (label : String)
  | created (o : Order)
deriving DecidableEq

def CreateOrderResult.statusCode : CreateOrderResult → Nat
  | .fieldsRequired => 400
  | .invalidTotal => 400
  | .invalidOrderType => 400
  | .emailRequired => 400
  | .invalidEmail => 400
  | .addressRequired => 400
  | .tableRequired => 400
  | .serverError => 500
  | .customerNotFound => 404
  | .productNotFound _ => 404
  | .created _ => 201

/-- The totalPrice check: absent, zero or negative is rejected. -/
def invalidTotalPrice : Option Int → Bool
  | none => true
  | some t => decide (t ≤ 0)

def validOrderType (ot : Option String) : Bool :=
  ot == some "delivery" || ot == some "restaurant"

/-- The test performed by the email regular expression of the handler
(caret, one or more non-space, an at sign, one or more non-space, a dot,
one or more non-space, dollar): the string has no whitespace and contains
an at sign preceded by at least one character and followed, at distance at
least two, by a dot that is not the last character. -/
def emailOk (e : String) : Bool :=
  let cs := e.data
  cs.all (fun c => !c.isWhitespace) &&
  (List.range cs.length).any (fun i =>
    (List.range cs.length).any (fun j =>
      (1 ≤ i) && (i + 2 ≤ j) && (j + 2 ≤ cs.length) &&
      (cs.getD i ' ' == '@') && (cs.getD j ' ' == '.')))

/-- The product id of an order item after the or-else fallback. -/
def orderPid (it : OrderItemReq) : Option String :=
  jsOrS it.productId it.id

/-- The label used in the ProductNotFound message: the item's name, or the
interpolation of its product id value. -/
def orderItemLabel (it : OrderItemReq) : String :=
  if strTruthy it.name then it.name.getD "" else jsShowOptStr (orderPid it)

/-- The product verification loop of POST /orders/create: the first item
whose id rejects yields a 500, the first whose product is absent fails the
whole request naming that item. -/
def verifyProducts (s : Store) : List OrderItemReq → Except CreateOrderResult Unit
  | [] => .ok ()
  | it :: rest =>
    match findProductJs s (orderPid it) with
    | .error _ => .error .serverError
    | .ok none => .error (.productNotFound (orderItemLabel it))
    | .ok (some _) => verifyProducts s rest

/-- POST /orders/create.  freshId models the document id the store assigns
to the new order. -/
def createOrder (s : Store) (freshId : String) (r : CreateOrderReq) :
    CreateOrderResult × Store :=
  if ¬ strTruthy r.customerId ∨ r.items = none ∨ r.items.getD [] = [] then
    (.fieldsRequired, s)
  else if invalidTotalPrice r.totalPrice then (.invalidTotal, s)
  else if ¬ validOrderType r.orderType then (.invalidOrderType, s)
  else if ¬ strTruthy r.email then (.emailRequired, s)
  else if ¬ emailOk (r.email.getD "") then (.invalidEmail, s)
  else if r.orderType = some "delivery" ∧ ¬ strTruthy r.deliveryAddress then
    (.addressRequired, s)
  else if r.orderType = some "restaurant" ∧ ¬ numTruthy r.tableNumber then
    (.tableRequired, s)
  else
    match findUser s (r.customerId.getD "") with
    | .error _ => (.serverError, s)
    | .ok none => (.customerNotFound, s)
    | .ok (some u) =>
      let its := r.items.getD []
      match verifyProducts s its with
      | .error res => (res, s)
      | .ok _ =>
        let ot := r.orderType.getD ""
        let o : Order :=
          { customerId := r.customerId.getD ""
            items := its.map (fun it =>
              { productId := orderPid it
                name := it.name
                price := it.price
                quantity := it.quantity })
            totalPrice := r.totalPrice.getD 0
            status := "pending"
            orderType := ot
            deliveryAddress := if ot = "delivery" then r.deliveryAddress else none
            tableNumber := if ot = "restaurant" then r.tableNumber else none
            preparedBy := none
            deliveryPersonId := none
            paymentStatus := "paid"
            email := if strTruthy r.email then r.email.getD "" else u.email
            doorPhoto := if strTruthy r.doorPhoto then r.doorPhoto else none }
        (.created o, { s with orders := s.orders ++ [(freshId, o)] })

inductive SetStatusResult
  | invalidStatus
  | serverError
  | orderNotFound
  | updated (o : Order)
deriving DecidableEq

def SetStatusResult.statusCode : SetStatusResult → Nat
  | .invalidStatus => 400
  | .serverError => 500
  | .orderNotFound => 404
  | .updated _ => 200

def validStatuses : List String :=
  ["pending", "preparing", "ready", "on-the-way", "delivered", "cancelled"]

/-- findByIdAndUpdate updates the unique document with the given id. -/
def replaceOrder (orders : List (String × Order)) (oid : String) (o2 : Order) :
    List (String × Order) :=
  match orders with
  | [] => []
  | (i, o) :: rest =>
    if i == oid then (i, o2) :: rest else (i, o) :: replaceOrder rest oid o2

/-- PUT /orders/:orderId/status.  The status is checked against the six
enumerated values before any lookup; preparedBy and deliveryPersonId are
only written when truthy, and since both schema paths are ObjectId
references, a truthy value that is not a castable ObjectId makes
findByIdAndUpdate reject with a CastError (a 500), as does a malformed
orderId. -/
def setStatus (s : Store) (orderId : String)
    (status preparedBy deliveryPersonId : Option String) : SetStatusResult × Store :=
  if ¬ (strTruthy status ∧ validStatuses.contains (status.getD "")) then
    (.invalidStatus, s)
  else if ¬ isValidObjectId orderId then (.serverError, s)
  else if strTruthy preparedBy ∧ ¬ isValidObjectId (preparedBy.getD "") then
    (.serverError, s)
  else if strTruthy deliveryPersonId ∧ ¬ isValidObjectId (deliveryPersonId.getD "") then
    (.serverError, s)
  else
    match s.orders.find? (fun p => p.1 == orderId) with
    | none => (.orderNotFound, s)
    | some (_, o) =>
      let o2 : Order :=
        { o with
          status := status.getD ""
          preparedBy := if strTruthy preparedBy then preparedBy else o.preparedBy
          deliveryPersonId :=
            if strTruthy deliveryPersonId then deliveryPersonId
            else o.deliveryPersonId }
      (.updated o2, { s with orders := replaceOrder s.orders orderId o2 })

/-! Concrete fixtures used by witnesses and counterexamples. -/

def uidA : String := "aaaaaaaaaaaaaaaaaaaaaaaa"

def pidLatte : String := "bbbbbbbbbbbbbbbbbbbbbbbb"

def pidGhost : String := "cccccccccccccccccccccccc"

def oidOne : String := "dddddddddddddddddddddddd"

def latte : Product :=
  { id := pidLatte, name := "Latte", description := "hot", price := 7,
    image := "latte.png", category := "Coffee", isAvailable := true }

def custA : User := { id := uidA, email := "c@x.com" }

def baseStore : Store :=
  { users := [custA], products := [latte], carts := [], orders := [] }

/-- A cart item whose productId and id are both absent. -/
def itemMissingPid : CartItemReq :=
  { productId := none, id := none, name := some "Mystery", price := some 5,
    quantity := some 1, image := none, description := none, category := none }

/-- A cart item referencing the existing Latte product. -/
def itemLatte : CartItemReq :=
  { productId := some pidLatte, id := none, name := none, price := none,
    quantity := some 2, image := none, description := none, category := none }

/-- A cart item with a well-formed product id that is not in the catalog. -/
def itemGhost : CartItemReq :=
  { productId := some pidGhost, id := none, name := some "Ghost", price := some 4,
    quantity := some 1, image := none, description := none, category := none }

/-! Helper lemmas. -/

theorem strTruthy_iff (o : Option String) :
    strTruthy o = true ↔ ∃ a, o = some a ∧ a ≠ "" := by
  cases o with
  | none => simp [strTruthy]
  | some s =>
    simp only [strTruthy, Bool.not_eq_true', Option.some.injEq]
    constructor
    · intro h
      exact ⟨s, rfl, fun hs => by
        rw [← String.isEmpty_iff] at hs
        simp [hs] at h⟩
    · rintro ⟨a, rfl, ha⟩
      rw [Bool.eq_false_iff]
      intro hemp
      exact ha ((String.isEmpty_iff _).mp hemp)

theorem numTruthy_iff (o : Option Int) :
    numTruthy o = true ↔ ∃ n, o = some n ∧ n ≠ 0 := by
  cases o with
  | none => simp [numTruthy]
  | some n => simp [numTruthy]

/-- The lines the item loop keeps when every submitted line carries a present,
well-formed product id: those whose product resolves, formatted, in order. -/
def keptLines (s : Store) (its : List CartItemReq) : List CartLine :=
  its.filterMap (fun it =>
    match s.products.find? (fun q => q.id == (jsOrS it.productId it.id).getD "") with
    | none => none
    | some p =>
      let line := formatLine ((jsOrS it.productId it.id).getD "") it p
      if line.name.isEmpty then none else some line)

theorem processItems_eq_kept (s : Store) (its : List CartItemReq)
    (h : ∀ it ∈ its, strTruthy (jsOrS it.productId it.id) ∧
         isValidObjectId ((jsOrS it.productId it.id).getD "")) :
    processItems s its = .ok (keptLines s its) := by
  induction its with
  | nil => rfl
  | cons it rest ih =>
    have h1 := (h it (List.mem_cons_self it rest)).1
    have h2 := (h it (List.mem_cons_self it rest)).2
    have ih2 := ih (fun x hx => h x (List.mem_cons_of_mem it hx))
    simp only [processItems, keptLines, List.filterMap_cons, h1, h2, not_true,
      if_false, ih2]
    cases hf : s.products.find?
        (fun q => q.id == (jsOrS it.productId it.id).getD "") with
    | none => simp [keptLines]
    | some p =>
      by_cases hn : (formatLine ((jsOrS it.productId it.id).getD "") it p).name.isEmpty <;>
        simp [hn, keptLines]

theorem updateCartItems_findCart (carts : List Cart) (cid : String)
    (its : List CartLine) (c : Cart) (h : findCart carts cid = some c) :
    findCart (updateCartItems carts cid its) cid = some { c with items := its } := by
  induction carts with
  | nil => simp [findCart] at h
  | cons d rest ih =>
    by_cases hd : (d.customerId == cid) = true
    · simp only [findCart, List.find?_cons, hd, Option.some.injEq] at h
      subst h
      simp [updateCartItems, findCart, List.find?_cons, hd]
    · simp only [findCart, List.find?_cons, hd] at h
      simp only [updateCartItems, hd, if_false]
      simpa [findCart, List.find?_cons, hd] using ih h

theorem findCart_append_new (carts : List Cart) (cid : String) (its : List CartLine)
    (h : findCart carts cid = none) :
    findCart (carts ++ [{ customerId := cid, items := its }]) cid =
      some { customerId := cid, items := its } := by
  induction carts with
  | nil => simp [findCart]
  | cons d rest ih =>
    by_cases hd : (d.customerId == cid) = true
    · simp only [findCart, List.find?_cons, hd] at h
      cases h
    · simp only [findCart, List.find?_cons, hd] at h
      simpa [findCart, List.cons_append, List.find?_cons, hd] using ih h

/-- The sequential persistence phase (no concurrent writer) always succeeds
and leaves the customer's cart holding exactly the formatted items. -/
theorem persistCart_id_spec (carts : List Cart) (cid : String) (its : List CartLine) :
    ∃ cs, persistCart carts (fun c => c) cid its = some cs ∧
      findCart cs cid = some { customerId := cid, items := its } := by
  cases hf : findCart carts cid with
  | some c =>
    refine ⟨updateCartItems carts cid its, ?_, ?_⟩
    · rw [persistCart, hf]
    · have hc := List.find?_some hf
      have hc2 : c.customerId = cid := by
        exact beq_iff_eq.mp hc
      rw [updateCartItems_findCart carts cid its c hf]
      simp [hc2]
  | none =>
    have hins : insertCart carts { customerId := cid, items := its } =
        .ok (carts ++ [{ customerId := cid, items := its }]) := by
      rw [insertCart, if_neg]
      simp only [List.any_eq_true, not_exists, not_and]
      intro d hd hbeq
      have := List.find?_eq_none.mp hf d hd
      exact this hbeq
    refine ⟨carts ++ [{ customerId := cid, items := its }], ?_, ?_⟩
    · rw [persistCart, hf]
      simp only [hins]
    · exact findCart_append_new carts cid its hf

theorem isValidObjectId_strTruthy (cid : String) (h : isValidObjectId cid = true) :
    strTruthy (some cid) = true := by
  rw [strTruthy, Bool.not_eq_true']
  rw [Bool.eq_false_iff]
  intro hemp
  have hc : cid = "" := (String.isEmpty_iff _).mp hemp
  subst hc
  exact absurd h (by decide)

/-- C1: the claim is false.  A line whose productId is missing (and likewise
one whose productId is malformed) is not dropped individually: the whole
request fails with a 400 validation error and nothing is saved, even though a
second line references a perfectly valid product. -/
theorem C1_counterexample :
    saveCart baseStore (some uidA) (some [itemMissingPid, itemLatte]) =
      (.productIdMissing (some "Mystery"), baseStore) ∧
    SaveCartResult.statusCode
      (saveCart baseStore (some uidA) (some [itemMissingPid, itemLatte])).1 = 400 := by
  constructor <;> decide

/-- C1 (amended): only a line whose productId is present and well-formed but
does not resolve to an existing product is dropped individually; the
remaining lines are still processed and saved.  (A missing or malformed
productId instead fails the whole request, per the counterexample.) -/
theorem C1_amended_partial_acceptance (s : Store) (cid : String)
    (it0 : CartItemReq) (rest0 : List CartItemReq)
    (hcid : isValidObjectId cid = true)
    (huser : (s.users.find? (fun u => u.id == cid)).isSome = true)
    (hids : ∀ it ∈ it0 :: rest0, strTruthy (jsOrS it.productId it.id) = true ∧
        isValidObjectId ((jsOrS it.productId it.id).getD "") = true)
    (hkept : keptLines s (it0 :: rest0) ≠ []) :
    (saveCart s (some cid) (some (it0 :: rest0))).1 =
      .saved { customerId := cid, items := keptLines s (it0 :: rest0) } ∧
    findCart (saveCart s (some cid) (some (it0 :: rest0))).2.carts cid =
      some { customerId := cid, items := keptLines s (it0 :: rest0) } := by
  obtain ⟨u, hu⟩ := Option.isSome_iff_exists.mp huser
  have htr := isValidObjectId_strTruthy cid hcid
  obtain ⟨cs, hcs, hfindres⟩ := persistCart_id_spec s.carts cid (keptLines s (it0 :: rest0))
  have hproc := processItems_eq_kept s (it0 :: rest0) hids
  rw [saveCart]
  simp only [htr, not_true, if_false, Option.getD_some, findUser, hcid, if_true, hu,
    hproc, hkept, ite_false, hcs]
  simp [hkept]
  exact hfindres

/-- Witness for the amended C1 at a concrete input: one ghost line (valid id,
no such product) and one valid line; the ghost line is dropped and the valid
line is saved. -/
theorem C1_amended_witness :
    (saveCart baseStore (some uidA) (some [itemGhost, itemLatte])).1 =
      .saved { customerId := uidA, items := keptLines baseStore [itemGhost, itemLatte] } ∧
    findCart (saveCart baseStore (some uidA) (some [itemGhost, itemLatte])).2.carts uidA =
      some { customerId := uidA, items := keptLines baseStore [itemGhost, itemLatte] } :=
  C1_amended_partial_acceptance baseStore uidA itemGhost [itemLatte]
    (by decide) (by decide) (by decide) (by decide)

theorem deleteFirstCart_not_found (carts : List Cart) (cid : String)
    (h : findCart carts cid = none) : deleteFirstCart carts cid = carts := by
  induction carts with
  | nil => rfl
  | cons d rest ih =>
    by_cases hd : (d.customerId == cid) = true
    · simp [findCart, List.find?_cons, hd] at h
    · simp only [findCart, List.find?_cons, hd] at h
      simp [deleteFirstCart, hd, ih h]

theorem findCart_delete_self (carts : List Cart) (cid : String)
    (h : atMostOneCart carts cid) :
    findCart (deleteFirstCart carts cid) cid = none := by
  induction carts with
  | nil => rfl
  | cons d rest ih =>
    by_cases hd : (d.customerId == cid) = true
    · have hdel : deleteFirstCart (d :: rest) cid = rest := by
        simp [deleteFirstCart, hd]
      rw [hdel, findCart, List.find?_eq_none]
      intro x hx hpx
      have hmem : x ∈ rest.filter (fun c => c.customerId == cid) :=
        List.mem_filter.mpr ⟨hx, hpx⟩
      have hpos := List.length_pos_of_mem hmem
      simp only [atMostOneCart, List.filter_cons, hd, if_true, List.length_cons] at h
      omega
    · have hdel : deleteFirstCart (d :: rest) cid = d :: deleteFirstCart rest cid := by
        simp [deleteFirstCart, hd]
      simp only [atMostOneCart, List.filter_cons, hd, if_false] at h
      have hih := ih h
      rw [hdel]
      simpa [findCart, List.find?_cons, hd] using hih

/-- C4: an empty items list deletes the cart (a no-op success when none
exists) and responds with an empty cart; getCart never responds 404, and
synthesizes an empty cart when no document exists, so clearing then reading
yields an empty item list. -/
theorem C4_empty_save_and_getCart :
    (∀ (s : Store) (cid : String), isValidObjectId cid = true →
      (s.users.find? (fun u => u.id == cid)).isSome = true →
      atMostOneCart s.carts cid →
      saveCart s (some cid) (some []) =
        (.cleared { customerId := cid, items := [] },
         { s with carts := deleteFirstCart s.carts cid }) ∧
      getCart (saveCart s (some cid) (some [])).2 cid = .okCart cid [] ∧
      (findCart s.carts cid = none → (saveCart s (some cid) (some [])).2 = s)) ∧
    (∀ (s : Store) (cid : String), GetCartResult.statusCode (getCart s cid) ≠ 404) ∧
    (∀ (s : Store) (cid : String), isValidObjectId cid = true →
      findCart s.carts cid = none → getCart s cid = .okCart cid []) := by
  refine ⟨?_, ?_, ?_⟩
  · intro s cid hcid huser hone
    obtain ⟨u, hu⟩ := Option.isSome_iff_exists.mp huser
    have htr := isValidObjectId_strTruthy cid hcid
    have hsave : saveCart s (some cid) (some []) =
        (.cleared { customerId := cid, items := [] },
         { s with carts := deleteFirstCart s.carts cid }) := by
      rw [saveCart]
      simp [htr, findUser, hcid, hu]
    refine ⟨hsave, ?_, ?_⟩
    · rw [hsave]
      rw [getCart]
      simp only [hcid, if_true]
      rw [findCart_delete_self s.carts cid hone]
    · intro hnone
      rw [hsave]
      simp [deleteFirstCart_not_found s.carts cid hnone]
  · intro s cid
    rw [getCart]
    by_cases hcid : isValidObjectId cid = true
    · simp only [hcid, if_true]
      cases findCart s.carts cid <;> simp [GetCartResult.statusCode]
    · simp only [hcid]
      simp [GetCartResult.statusCode]
  · intro s cid hcid hnone
    rw [getCart]
    simp [hcid, hnone]

/-- Witness for C4 at a concrete input. -/
theorem C4_witness :
    (saveCart baseStore (some uidA) (some []) =
      (.cleared { customerId := uidA, items := [] },
       { baseStore with carts := deleteFirstCart baseStore.carts uidA }) ∧
     getCart (saveCart baseStore (some uidA) (some [])).2 uidA = .okCart uidA [] ∧
     (findCart baseStore.carts uidA = none →
       (saveCart baseStore (some uidA) (some [])).2 = baseStore)) ∧
    GetCartResult.statusCode (getCart baseStore uidA) ≠ 404 ∧
    getCart baseStore uidA = .okCart uidA [] := by
  refine ⟨C4_empty_save_and_getCart.1 baseStore uidA (by decide) (by decide) ?_,
    C4_empty_save_and_getCart.2.1 baseStore uidA,
    C4_empty_save_and_getCart.2.2 baseStore uidA (by decide) (by decide)⟩
  rw [atMostOneCart]
  decide

theorem keptLines_nil_of_all_unresolved (s : Store) (its : List CartItemReq)
    (h : ∀ it ∈ its,
        s.products.find? (fun q => q.id == (jsOrS it.productId it.id).getD "") = none) :
    keptLines s its = [] := by
  induction its with
  | nil => rfl
  | cons it rest ih =>
    have h0 := h it (List.mem_cons_self it rest)
    rw [keptLines, List.filterMap_cons, h0]
    exact ih (fun x hx => h x (List.mem_cons_of_mem it hx))

/-- C5: a non-empty items list in which no line survives product-resolution
filtering fails the whole save with NoValidItems (400) and the store is
untouched, while the empty-items request on the same store succeeds
(200). -/
theorem C5_no_valid_items (s : Store) (cid : String) (it0 : CartItemReq)
    (rest0 : List CartItemReq)
    (hcid : isValidObjectId cid = true)
    (huser : (s.users.find? (fun u => u.id == cid)).isSome = true)
    (hids : ∀ it ∈ it0 :: rest0, strTruthy (jsOrS it.productId it.id) = true ∧
        isValidObjectId ((jsOrS it.productId it.id).getD "") = true)
    (hnone : ∀ it ∈ it0 :: rest0,
        s.products.find? (fun q => q.id == (jsOrS it.productId it.id).getD "") = none) :
    saveCart s (some cid) (some (it0 :: rest0)) = (.noValidItems, s) ∧
    SaveCartResult.statusCode (saveCart s (some cid) (some (it0 :: rest0))).1 = 400 ∧
    SaveCartResult.statusCode (saveCart s (some cid) (some [])).1 = 200 := by
  obtain ⟨u, hu⟩ := Option.isSome_iff_exists.mp huser
  have htr := isValidObjectId_strTruthy cid hcid
  have hproc := processItems_eq_kept s (it0 :: rest0) hids
  have hkept := keptLines_nil_of_all_unresolved s (it0 :: rest0) hnone
  rw [hkept] at hproc
  have hmain : saveCart s (some cid) (some (it0 :: rest0)) = (.noValidItems, s) := by
    rw [saveCart]
    simp [htr, findUser, hcid, hu, hproc]
  refine ⟨hmain, by rw [hmain]; rfl, ?_⟩
  rw [saveCart]
  simp [htr, findUser, hcid, hu]
  rfl

/-- Witness for C5 at a concrete input: a single line referencing a
well-formed but nonexistent product. -/
theorem C5_witness :
    saveCart baseStore (some uidA) (some [itemGhost]) = (.noValidItems, baseStore) ∧
    SaveCartResult.statusCode (saveCart baseStore (some uidA) (some [itemGhost])).1 = 400 ∧
    SaveCartResult.statusCode (saveCart baseStore (some uidA) (some [])).1 = 200 :=
  C5_no_valid_items baseStore uidA itemGhost []
    (by decide) (by decide) (by decide) (by decide)

theorem updateCartItems_filter_length (carts : List Cart) (cid2 : String)
    (its : List CartLine) (cid : String) :
    ((updateCartItems carts cid2 its).filter (fun c => c.customerId == cid)).length =
      (carts.filter (fun c => c.customerId == cid)).length := by
  induction carts with
  | nil => rfl
  | cons d rest ih =>
    by_cases hd : (d.customerId == cid2) = true
    · have hupd : updateCartItems (d :: rest) cid2 its = { d with items := its } :: rest := by
        simp [updateCartItems, hd]
      rw [hupd]
      by_cases h2 : (d.customerId == cid) = true <;>
        simp [List.filter_cons, h2]
    · have hupd : updateCartItems (d :: rest) cid2 its =
          d :: updateCartItems rest cid2 its := by
        simp [updateCartItems, hd]
      rw [hupd]
      by_cases h2 : (d.customerId == cid) = true <;>
        simp [List.filter_cons, h2, ih]

theorem deleteFirstCart_filter_length_le (carts : List Cart) (cid2 cid : String) :
    ((deleteFirstCart carts cid2).filter (fun c => c.customerId == cid)).length ≤
      (carts.filter (fun c => c.customerId == cid)).length := by
  induction carts with
  | nil => simp [deleteFirstCart]
  | cons d rest ih =>
    by_cases hd : (d.customerId == cid2) = true
    · have hdel : deleteFirstCart (d :: rest) cid2 = rest := by
        simp [deleteFirstCart, hd]
      rw [hdel]
      by_cases h2 : (d.customerId == cid) = true <;> simp [List.filter_cons, h2]
    · have hdel : deleteFirstCart (d :: rest) cid2 = d :: deleteFirstCart rest cid2 := by
        simp [deleteFirstCart, hd]
      rw [hdel]
      by_cases h2 : (d.customerId == cid) = true <;>
        simp [List.filter_cons, h2] <;> omega

theorem applyCartOp_preserves (carts : List Cart) (op : CartOp) (cid : String)
    (h : atMostOneCart carts cid) : atMostOneCart (applyCartOp carts op) cid := by
  cases op with
  | upd cid2 its =>
    rw [applyCartOp, atMostOneCart, updateCartItems_filter_length]
    exact h
  | del cid2 =>
    rw [applyCartOp, atMostOneCart]
    exact Nat.le_trans (deleteFirstCart_filter_length_le carts cid2 cid) h
  | ins c =>
    rw [applyCartOp]
    cases hins : insertCart carts c with
    | error e => exact h
    | ok cs =>
      rw [insertCart] at hins
      by_cases hany : carts.any (fun d => d.customerId == c.customerId) = true
      · simp [hany] at hins
      · simp only [hany, Bool.false_eq_true, if_false, Except.ok.injEq] at hins
        subst hins
        rw [atMostOneCart, List.filter_append]
        by_cases hc : (c.customerId == cid) = true
        · have hcideq : c.customerId = cid := beq_iff_eq.mp hc
          have hfilnil : carts.filter (fun d => d.customerId == cid) = [] := by
            rw [List.filter_eq_nil_iff]
            intro d hd hdd
            apply hany
            rw [List.any_eq_true]
            exact ⟨d, hd, by rw [hcideq]; exact hdd⟩
          rw [hfilnil]
          simp [hc]
        · rw [List.length_append]
          have : ([c].filter (fun d => d.customerId == cid)).length = 0 := by
            simp [List.filter_cons, hc]
          rw [this]
          simpa [atMostOneCart] using h

theorem applyCartOps_preserves (carts : List Cart) (ops : List CartOp) (cid : String)
    (h : atMostOneCart carts cid) : atMostOneCart (applyCartOps carts ops) cid := by
  induction ops generalizing carts with
  | nil => exact h
  | cons op rest ih =>
    exact ih (applyCartOp carts op) (applyCartOp_preserves carts op cid h)

theorem persistCart_race (carts : List Cart) (interfere : List Cart → List Cart)
    (cid : String) (its : List CartLine)
    (hnone : findCart carts cid = none)
    (hdup : insertCart (interfere carts) { customerId := cid, items := its } =
      .error 11000) :
    persistCart carts interfere cid its =
      some (updateCartItems (interfere carts) cid its) := by
  have hex : (findCart (interfere carts) cid).isSome := by
    rw [insertCart] at hdup
    by_cases hany : (interfere carts).any (fun d => d.customerId == cid) = true
    · rw [findCart, List.find?_isSome]
      rw [List.any_eq_true] at hany
      obtain ⟨d, hd, hdd⟩ := hany
      exact ⟨d, hd, hdd⟩
    · simp [hany] at hdup
  obtain ⟨c, hc⟩ := Option.isSome_iff_exists.mp hex
  rw [persistCart, hnone]
  simp only [hdup, hc]

theorem persistCart_total (carts : List Cart) (interfere : List Cart → List Cart)
    (cid : String) (its : List CartLine) :
    (persistCart carts interfere cid its).isSome := by
  rw [persistCart]
  cases hf : findCart carts cid with
  | some c => simp
  | none =>
    cases hins : insertCart (interfere carts) { customerId := cid, items := its } with
    | ok cs => simp [hins]
    | error e =>
      rw [insertCart] at hins
      by_cases hany : (interfere carts).any (fun d => d.customerId == cid) = true
      · obtain ⟨c, hc1, hc2⟩ := List.any_eq_true.mp hany
        have hsome : (findCart (interfere carts) cid).isSome := by
          rw [findCart, List.find?_isSome]
          exact ⟨c, hc1, hc2⟩
        obtain ⟨c2, hc⟩ := Option.isSome_iff_exists.mp hsome
        simp [insertCart, hany, hc]
      · simp [hany] at hins

/-- C3: at most one cart document ever exists per customer — the uniqueness
invariant is preserved by every atomic cart operation, hence by every
interleaving of saveCart calls; a first-creation save that loses the
uniqueness race recovers by re-reading the now-existing cart and applying
its items as an update; and the persistence phase never surfaces the race
as an error. -/
theorem C3_cart_uniqueness_and_race :
    (∀ (carts : List Cart) (ops : List CartOp) (cid : String),
      atMostOneCart carts cid → atMostOneCart (applyCartOps carts ops) cid) ∧
    (∀ (carts : List Cart) (interfere : List Cart → List Cart) (cid : String)
        (its : List CartLine),
      findCart carts cid = none →
      insertCart (interfere carts) { customerId := cid, items := its } = .error 11000 →
      persistCart carts interfere cid its =
        some (updateCartItems (interfere carts) cid its)) ∧
    (∀ (carts : List Cart) (interfere : List Cart → List Cart) (cid : String)
        (its : List CartLine),
      (persistCart carts interfere cid its).isSome) :=
  ⟨fun carts ops cid h => applyCartOps_preserves carts ops cid h,
   fun carts interfere cid its h1 h2 => persistCart_race carts interfere cid its h1 h2,
   fun carts interfere cid its => persistCart_total carts interfere cid its⟩

def lineLatte : CartLine :=
  { productId := pidLatte, name := "Latte", price := 7, quantity := 2,
    image := "latte.png", description := "hot", category := "Coffee" }

def cartA : Cart := { customerId := uidA, items := [] }

/-- Witness for C3 at concrete inputs: a double-insert interleaving keeps a
single cart, and a save that loses the race to a concurrent writer recovers
as an update and succeeds. -/
theorem C3_witness :
    atMostOneCart
      (applyCartOps [] [CartOp.ins cartA, CartOp.ins cartA, CartOp.upd uidA [lineLatte]])
      uidA ∧
    persistCart [] (fun _ => [cartA]) uidA [lineLatte] =
      some (updateCartItems [cartA] uidA [lineLatte]) ∧
    (persistCart [] (fun _ => [cartA]) uidA [lineLatte]).isSome :=
  ⟨C3_cart_uniqueness_and_race.1 [] [CartOp.ins cartA, CartOp.ins cartA,
      CartOp.upd uidA [lineLatte]] uidA (by rw [atMostOneCart]; decide),
   C3_cart_uniqueness_and_race.2.1 [] (fun _ => [cartA]) uidA [lineLatte]
     (by rfl) (by rfl),
   C3_cart_uniqueness_and_race.2.2 [] (fun _ => [cartA]) uidA [lineLatte]⟩

/-- Whether an order item's product id resolves in the catalog. -/
def resolvesIn (s : Store) (it : OrderItemReq) : Bool :=
  (s.products.find? (fun q => q.id == (orderPid it).getD "")).isSome

theorem verifyProducts_first_missing (s : Store) (its : List OrderItemReq)
    (h : ∀ it ∈ its, strTruthy (orderPid it) = true ∧
        isValidObjectId ((orderPid it).getD "") = true) :
    verifyProducts s its =
      (match its.find? (fun it => !(resolvesIn s it)) with
       | some it => .error (.productNotFound (orderItemLabel it))
       | none => .ok ()) := by
  induction its with
  | nil => rfl
  | cons it rest ih =>
    obtain ⟨h1, h2⟩ := h it (List.mem_cons_self it rest)
    obtain ⟨v, hv, hvne⟩ := (strTruthy_iff (orderPid it)).mp h1
    rw [hv] at h2
    simp only [Option.getD_some] at h2
    have hfp : findProductJs s (orderPid it) =
        .ok (s.products.find? (fun q => q.id == v)) := by
      rw [hv, findProductJs]
      simp [h2]
    rw [verifyProducts, hfp]
    cases hfind : s.products.find? (fun q => q.id == v) with
    | none =>
      have hres : resolvesIn s it = false := by
        rw [resolvesIn, hv]
        simp [hfind]
      rw [List.find?_cons]
      simp [hres]
    | some p =>
      have hres : resolvesIn s it = true := by
        rw [resolvesIn, hv]
        simp [hfind]
      rw [List.find?_cons]
      simp only [hres, Bool.not_true]
      exact ih (fun x hx => h x (List.mem_cons_of_mem it hx))

theorem verifyProducts_error_shape (s : Store) (its : List OrderItemReq)
    (res : CreateOrderResult) (h : verifyProducts s its = .error res) :
    res = .serverError ∨ ∃ label, res = .productNotFound label := by
  induction its with
  | nil => simp [verifyProducts] at h
  | cons it rest ih =>
    rw [verifyProducts] at h
    cases hfp : findProductJs s (orderPid it) with
    | error e =>
      rw [hfp] at h
      simp only [Except.error.injEq] at h
      exact Or.inl h.symm
    | ok po =>
      rw [hfp] at h
      cases po with
      | none =>
        simp only [Except.error.injEq] at h
        exact Or.inr ⟨orderItemLabel it, h.symm⟩
      | some p => exact ih h

/-- Order creation never persists anything unless it succeeds: every failing
branch leaves the store unchanged. -/
theorem createOrder_no_partial (s : Store) (f : String) (r : CreateOrderReq) :
    (createOrder s f r).2 = s ∨ ∃ o, (createOrder s f r).1 = .created o := by
  rcases hco : createOrder s f r with ⟨res, s2⟩
  rw [createOrder] at hco
  split at hco
  · exact Or.inl (congrArg Prod.snd hco.symm)
  split at hco
  · exact Or.inl (congrArg Prod.snd hco.symm)
  split at hco
  · exact Or.inl (congrArg Prod.snd hco.symm)
  split at hco
  · exact Or.inl (congrArg Prod.snd hco.symm)
  split at hco
  · exact Or.inl (congrArg Prod.snd hco.symm)
  split at hco
  · exact Or.inl (congrArg Prod.snd hco.symm)
  split at hco
  · exact Or.inl (congrArg Prod.snd hco.symm)
  split at hco
  · exact Or.inl (congrArg Prod.snd hco.symm)
  · exact Or.inl (congrArg Prod.snd hco.symm)
  cases hver : verifyProducts s (r.items.getD []) with
  | error e =>
    simp only [hver] at hco
    exact Or.inl (congrArg Prod.snd hco.symm)
  | ok x =>
    simp only [hver] at hco
    exact Or.inr ⟨_, congrArg Prod.fst hco.symm⟩

theorem createOrder_created_inv (s : Store) (f : String) (r : CreateOrderReq)
    (o : Order) (s2 : Store) (h : createOrder s f r = (.created o, s2)) :
    validOrderType r.orderType = true ∧
    (r.orderType = some "delivery" → strTruthy r.deliveryAddress = true) ∧
    (r.orderType = some "restaurant" → numTruthy r.tableNumber = true) ∧
    o.status = "pending" ∧ o.paymentStatus = "paid" ∧
    o.items = (r.items.getD []).map (fun it =>
      { productId := orderPid it, name := it.name, price := it.price,
        quantity := it.quantity }) ∧
    o.orderType = r.orderType.getD "" ∧
    o.deliveryAddress =
      (if r.orderType.getD "" = "delivery" then r.deliveryAddress else none) ∧
    o.tableNumber =
      (if r.orderType.getD "" = "restaurant" then r.tableNumber else none) ∧
    s2 = { s with orders := s.orders ++ [(f, o)] } := by
  rw [createOrder] at h
  split at h
  · simp at h
  split at h
  · simp at h
  split at h
  · simp at h
  split at h
  · simp at h
  split at h
  · simp at h
  split at h
  · simp at h
  split at h
  · simp at h
  rename_i h1 h2 h3 h4 h5 h6 h7
  split at h
  · simp at h
  · simp at h
  rename_i u hu
  cases hver : verifyProducts s (r.items.getD []) with
  | error e =>
    simp only [hver] at h
    have hshape := verifyProducts_error_shape s (r.items.getD []) e hver
    rw [Prod.mk.injEq] at h
    rcases hshape with h' | ⟨label, h'⟩ <;> rw [h'] at h <;> exact absurd h.1 (by simp)
  | ok x =>
    simp only [hver] at h
    rw [Prod.mk.injEq] at h
    obtain ⟨ho, hs2⟩ := h
    rw [CreateOrderResult.created.injEq] at ho
    subst ho
    subst hs2
    refine ⟨not_not.mp h3, ?_, ?_, rfl, rfl, rfl, rfl, rfl, rfl, rfl⟩
    · intro hot
      by_contra haddr
      exact h6 ⟨hot, haddr⟩
    · intro hot
      by_contra htab
      exact h7 ⟨hot, htab⟩

/-- C2: order creation is all-or-nothing with respect to product resolution:
with an otherwise valid request in which every item's product id is present
and well-formed, if any item does not resolve, the whole creation fails with
ProductNotFound naming the first offending item and the store is unchanged;
and no failing path of createOrder ever persists anything. -/
theorem C2_order_creation_all_or_nothing :
    (∀ (s : Store) (f : String) (r : CreateOrderReq) (its : List OrderItemReq)
        (it0 : OrderItemReq),
      r.items = some its →
      ¬ (¬ strTruthy r.customerId ∨ r.items = none ∨ r.items.getD [] = []) →
      invalidTotalPrice r.totalPrice = false →
      validOrderType r.orderType = true →
      strTruthy r.email = true →
      emailOk (r.email.getD "") = true →
      ¬ (r.orderType = some "delivery" ∧ ¬ strTruthy r.deliveryAddress) →
      ¬ (r.orderType = some "restaurant" ∧ ¬ numTruthy r.tableNumber) →
      isValidObjectId (r.customerId.getD "") = true →
      (s.users.find? (fun u => u.id == r.customerId.getD "")).isSome = true →
      (∀ it ∈ its, strTruthy (orderPid it) = true ∧
          isValidObjectId ((orderPid it).getD "") = true) →
      its.find? (fun it => !(resolvesIn s it)) = some it0 →
      createOrder s f r = (.productNotFound (orderItemLabel it0), s)) ∧
    (∀ (s : Store) (f : String) (r : CreateOrderReq),
      (createOrder s f r).2 = s ∨ ∃ o, (createOrder s f r).1 = .created o) := by
  refine ⟨?_, fun s f r => createOrder_no_partial s f r⟩
  intro s f r its it0 hits hc1 hc2 hc3 hc4 hc5 hc6 hc7 hcid huser hall hfirst
  obtain ⟨u, hu⟩ := Option.isSome_iff_exists.mp huser
  have hver := verifyProducts_first_missing s its hall
  simp only [hfirst] at hver
  have hfu : findUser s (r.customerId.getD "") = .ok (some u) := by
    rw [findUser]
    simp [hcid, hu]
  rw [createOrder, if_neg hc1, if_neg (by simp [hc2]), if_neg (by simp [hc3]),
    if_neg (by simp [hc4]), if_neg (by simp [hc5]), if_neg hc6, if_neg hc7, hfu]
  simp only [hits, Option.getD_some, hver]

def orderItemLatte : OrderItemReq :=
  { productId := some pidLatte, id := none, name := some "Latte", price := some 7,
    quantity := some 2 }

def orderItemGhost : OrderItemReq :=
  { productId := some pidGhost, id := none, name := some "Ghost", price := some 4,
    quantity := some 1 }

def reqGhost : CreateOrderReq :=
  { customerId := some uidA, items := some [orderItemLatte, orderItemGhost],
    totalPrice := some 18, orderType := some "restaurant", deliveryAddress := none,
    tableNumber := some 4, email := some "c@x.com", doorPhoto := none }

/-- Witness for C2: an order with one resolvable and one unresolvable item
fails naming the unresolvable one, and the store is unchanged. -/
theorem C2_witness :
    createOrder baseStore oidOne reqGhost =
      (.productNotFound (orderItemLabel orderItemGhost), baseStore) ∧
    ((createOrder baseStore oidOne reqGhost).2 = baseStore ∨
      ∃ o, (createOrder baseStore oidOne reqGhost).1 = .created o) :=
  ⟨C2_order_creation_all_or_nothing.1 baseStore oidOne reqGhost
      [orderItemLatte, orderItemGhost] orderItemGhost rfl (by decide) (by decide)
      (by decide) (by decide) (by decide) (by decide) (by decide) (by decide)
      (by decide) (by decide) (by decide),
   C2_order_creation_all_or_nothing.2 baseStore oidOne reqGhost⟩

theorem validOrderType_cases (ot : Option String) (h : validOrderType ot = true) :
    ot = some "delivery" ∨ ot = some "restaurant" := by
  rw [validOrderType, Bool.or_eq_true] at h
  rcases h with h | h
  · exact Or.inl (beq_iff_eq.mp h)
  · exact Or.inr (beq_iff_eq.mp h)

theorem setStatus_updated_inv (s : Store) (oid : String)
    (st pb dp : Option String) (o2 : Order) (s2 : Store) (i : String) (o : Order)
    (h : setStatus s oid st pb dp = (.updated o2, s2))
    (hfind : s.orders.find? (fun p => p.1 == oid) = some (i, o)) :
    o2 = { o with
      status := st.getD ""
      preparedBy := if strTruthy pb then pb else o.preparedBy
      deliveryPersonId := if strTruthy dp then dp else o.deliveryPersonId } ∧
    s2 = { s with orders := replaceOrder s.orders oid o2 } := by
  rw [setStatus] at h
  split at h
  · simp at h
  split at h
  · simp at h
  split at h
  · simp at h
  split at h
  · simp at h
  simp only [hfind] at h
  rw [Prod.mk.injEq] at h
  obtain ⟨ho, hs⟩ := h
  rw [SetStatusResult.updated.injEq] at ho
  subst ho
  exact ⟨rfl, hs.symm⟩

set_option maxHeartbeats 1000000 in
/-- C6: every successfully created order has exactly one of deliveryAddress
and tableNumber non-null, determined by its orderType; a delivery request
without an address and a restaurant request without a table number both fail
validation with a 400 and change nothing; and setStatus preserves the
orderType, deliveryAddress and tableNumber fields. -/
theorem C6_mode_exclusive_fields :
    (∀ (s : Store) (f : String) (r : CreateOrderReq) (o : Order) (s2 : Store),
      createOrder s f r = (.created o, s2) →
      (o.orderType = "delivery" ∧ (∃ a, o.deliveryAddress = some a ∧ a ≠ "") ∧
          o.tableNumber = none) ∨
      (o.orderType = "restaurant" ∧ (∃ n, o.tableNumber = some n ∧ n ≠ 0) ∧
          o.deliveryAddress = none)) ∧
    (∀ (s : Store) (f : String) (r : CreateOrderReq),
      r.orderType = some "delivery" → ¬ strTruthy r.deliveryAddress →
      CreateOrderResult.statusCode (createOrder s f r).1 = 400 ∧
      (createOrder s f r).2 = s) ∧
    (∀ (s : Store) (f : String) (r : CreateOrderReq),
      r.orderType = some "restaurant" → ¬ numTruthy r.tableNumber →
      CreateOrderResult.statusCode (createOrder s f r).1 = 400 ∧
      (createOrder s f r).2 = s) ∧
    (∀ (s : Store) (oid : String) (st pb dp : Option String) (o2 : Order)
        (s2 : Store) (i : String) (o : Order),
      setStatus s oid st pb dp = (.updated o2, s2) →
      s.orders.find? (fun p => p.1 == oid) = some (i, o) →
      o2.orderType = o.orderType ∧ o2.deliveryAddress = o.deliveryAddress ∧
      o2.tableNumber = o.tableNumber) := by
  refine ⟨?_, ?_, ?_, ?_⟩
  · intro s f r o s2 h
    obtain ⟨hvot, hda, htn, _, _, _, hot, haddr, htab, _⟩ :=
      createOrder_created_inv s f r o s2 h
    rcases validOrderType_cases r.orderType hvot with hd | hr
    · left
      rw [hd] at hot haddr htab
      simp only [Option.getD_some] at hot haddr htab
      obtain ⟨a, ha, hane⟩ := (strTruthy_iff _).mp (hda hd)
      refine ⟨hot, ⟨a, ?_, hane⟩, by simpa using htab⟩
      rw [haddr]
      simpa using ha
    · right
      rw [hr] at hot haddr htab
      simp only [Option.getD_some] at hot haddr htab
      obtain ⟨n, hn, hnne⟩ := (numTruthy_iff _).mp (htn hr)
      refine ⟨hot, ⟨n, ?_, hnne⟩, by simpa using haddr⟩
      simp at htab
      rw [htab, hn]
  · intro s f r hot haddr
    rcases hco : createOrder s f r with ⟨res, s2⟩
    rw [createOrder] at hco
    split at hco
    · cases hco
      exact ⟨rfl, rfl⟩
    split at hco
    · cases hco
      exact ⟨rfl, rfl⟩
    split at hco
    · cases hco
      exact ⟨rfl, rfl⟩
    split at hco
    · cases hco
      exact ⟨rfl, rfl⟩
    split at hco
    · cases hco
      exact ⟨rfl, rfl⟩
    split at hco
    · cases hco
      exact ⟨rfl, rfl⟩
    · rename_i h6
      exact absurd ⟨hot, haddr⟩ h6
  · intro s f r hot htab
    rcases hco : createOrder s f r with ⟨res, s2⟩
    rw [createOrder] at hco
    split at hco
    · cases hco
      exact ⟨rfl, rfl⟩
    split at hco
    · cases hco
      exact ⟨rfl, rfl⟩
    split at hco
    · cases hco
      exact ⟨rfl, rfl⟩
    split at hco
    · cases hco
      exact ⟨rfl, rfl⟩
    split at hco
    · cases hco
      exact ⟨rfl, rfl⟩
    split at hco
    · cases hco
      exact ⟨rfl, rfl⟩
    split at hco
    · cases hco
      exact ⟨rfl, rfl⟩
    · rename_i h7
      exact absurd ⟨hot, htab⟩ h7
  · intro s oid st pb dp o2 s2 i o h hfind
    obtain ⟨ho2, _⟩ := setStatus_updated_inv s oid st pb dp o2 s2 i o h hfind
    rw [ho2]
    exact ⟨rfl, rfl, rfl⟩

def reqGood : CreateOrderReq :=
  { customerId := some uidA, items := some [orderItemLatte], totalPrice := some 14,
    orderType := some "restaurant", deliveryAddress := none, tableNumber := some 4,
    email := some "c@x.com", doorPhoto := none }

def oGood : Order :=
  { customerId := uidA,
    items := [{ productId := some pidLatte, name := some "Latte", price := some 7,
                quantity := some 2 }],
    totalPrice := 14, status := "pending", orderType := "restaurant",
    deliveryAddress := none, tableNumber := some 4, preparedBy := none,
    deliveryPersonId := none, paymentStatus := "paid", email := "c@x.com",
    doorPhoto := none }

def storeWithOrder : Store := { baseStore with orders := [(oidOne, oGood)] }

def reqNoAddr : CreateOrderReq :=
  { customerId := some uidA, items := some [orderItemLatte], totalPrice := some 14,
    orderType := some "delivery", deliveryAddress := none, tableNumber := none,
    email := some "c@x.com", doorPhoto := none }

def reqNoTable : CreateOrderReq :=
  { customerId := some uidA, items := some [orderItemLatte], totalPrice := some 14,
    orderType := some "restaurant", deliveryAddress := none, tableNumber := none,
    email := some "c@x.com", doorPhoto := none }

def oGoodReady : Order :=
  { oGood with status := "ready" }

set_option maxHeartbeats 2000000 in
/-- Witness for C6 at concrete inputs. -/
theorem C6_witness :
    ((oGood.orderType = "delivery" ∧ (∃ a, oGood.deliveryAddress = some a ∧ a ≠ "") ∧
        oGood.tableNumber = none) ∨
     (oGood.orderType = "restaurant" ∧ (∃ n, oGood.tableNumber = some n ∧ n ≠ 0) ∧
        oGood.deliveryAddress = none)) ∧
    (CreateOrderResult.statusCode (createOrder baseStore oidOne reqNoAddr).1 = 400 ∧
      (createOrder baseStore oidOne reqNoAddr).2 = baseStore) ∧
    (CreateOrderResult.statusCode (createOrder baseStore oidOne reqNoTable).1 = 400 ∧
      (createOrder baseStore oidOne reqNoTable).2 = baseStore) ∧
    (oGoodReady.orderType = oGood.orderType ∧
     oGoodReady.deliveryAddress = oGood.deliveryAddress ∧
     oGoodReady.tableNumber = oGood.tableNumber) :=
  ⟨C6_mode_exclusive_fields.1 baseStore oidOne reqGood oGood storeWithOrder (by decide),
   C6_mode_exclusive_fields.2.1 baseStore oidOne reqNoAddr (by decide) (by decide),
   C6_mode_exclusive_fields.2.2.1 baseStore oidOne reqNoTable (by decide) (by decide),
   C6_mode_exclusive_fields.2.2.2 storeWithOrder oidOne (some "ready") none none
     oGoodReady
     { storeWithOrder with orders := replaceOrder storeWithOrder.orders oidOne oGoodReady }
     oidOne oGood (by decide) (by decide)⟩

/-- C7: setStatus rejects any status outside the six enumerated values with
InvalidStatus uniformly (before any lookup, for every store); accepts any of
the six from any prior status when the order resolves and the supplied
assignees, if truthy, are castable ObjectIds; responds OrderNotFound only
when the status is valid, the id is well-formed, and no order with that id
exists; and a truthy assignee that is not a castable ObjectId makes the
update reject with a 500 CastError rather than an update. -/
theorem C7_setStatus_validation :
    (∀ (s : Store) (oid : String) (st pb dp : Option String),
      ¬ (strTruthy st ∧ validStatuses.contains (st.getD "")) →
      setStatus s oid st pb dp = (.invalidStatus, s)) ∧
    (∀ (s : Store) (oid : String) (st pb dp : Option String) (i : String) (o : Order),
      strTruthy st = true → validStatuses.contains (st.getD "") = true →
      isValidObjectId oid = true →
      (strTruthy pb = true → isValidObjectId (pb.getD "") = true) →
      (strTruthy dp = true → isValidObjectId (dp.getD "") = true) →
      s.orders.find? (fun p => p.1 == oid) = some (i, o) →
      ∃ o2, (setStatus s oid st pb dp).1 = .updated o2 ∧ o2.status = st.getD "") ∧
    (∀ (s : Store) (oid : String) (st pb dp : Option String),
      (setStatus s oid st pb dp).1 = .orderNotFound →
      strTruthy st = true ∧ validStatuses.contains (st.getD "") = true ∧
      isValidObjectId oid = true ∧
      s.orders.find? (fun p => p.1 == oid) = none) ∧
    (∀ (s : Store) (oid : String) (st pb dp : Option String),
      strTruthy st = true → validStatuses.contains (st.getD "") = true →
      isValidObjectId oid = true →
      strTruthy pb = true → isValidObjectId (pb.getD "") = false →
      setStatus s oid st pb dp = (.serverError, s) ∧
      SetStatusResult.statusCode (setStatus s oid st pb dp).1 = 500) := by
  refine ⟨?_, ?_, ?_, ?_⟩
  · intro s oid st pb dp hinv
    rw [setStatus, if_pos hinv]
  · intro s oid st pb dp i o hst hval hoid hpb hdp hfind
    rw [setStatus, if_neg (not_not.mpr ⟨hst, hval⟩), if_neg (by simp [hoid]),
      if_neg (fun hcast => by simp [hpb hcast.1] at hcast),
      if_neg (fun hcast => by simp [hdp hcast.1] at hcast)]
    simp only [hfind]
    exact ⟨_, rfl, rfl⟩
  · intro s oid st pb dp h
    rw [setStatus] at h
    split at h
    · simp at h
    rename_i hcond
    split at h
    · simp at h
    rename_i hoid
    split at h
    · simp at h
    split at h
    · simp at h
    cases hfind : s.orders.find? (fun p => p.1 == oid) with
    | none =>
      have hc := not_not.mp hcond
      exact ⟨hc.1, hc.2, not_not.mp hoid, rfl⟩
    | some p =>
      obtain ⟨i, o⟩ := p
      simp only [hfind] at h
      simp at h
  · intro s oid st pb dp hst hval hoid hpb hcast
    have hmain : setStatus s oid st pb dp = (.serverError, s) := by
      rw [setStatus, if_neg (not_not.mpr ⟨hst, hval⟩), if_neg (by simp [hoid]),
        if_pos ⟨hpb, by simp [hcast]⟩]
    exact ⟨hmain, by rw [hmain]; rfl⟩

def oidTwo : String := "eeeeeeeeeeeeeeeeeeeeeeee"

/-- Witness for C7 at concrete inputs: a bogus status is rejected for any
store; a valid status is accepted from the prior status pending; a valid
status with an unknown order id yields OrderNotFound facts; and a truthy
non-castable assignee makes the update fail with a 500. -/
theorem C7_witness :
    setStatus storeWithOrder oidOne (some "bogus") none none =
      (.invalidStatus, storeWithOrder) ∧
    (∃ o2, (setStatus storeWithOrder oidOne (some "cancelled") none none).1 =
      .updated o2 ∧ o2.status = "cancelled") ∧
    (strTruthy (some "ready") = true ∧
     validStatuses.contains "ready" = true ∧
     isValidObjectId oidTwo = true ∧
     storeWithOrder.orders.find? (fun p => p.1 == oidTwo) = none) ∧
    (setStatus storeWithOrder oidOne (some "ready") (some "bob") none =
      (.serverError, storeWithOrder) ∧
     SetStatusResult.statusCode
       (setStatus storeWithOrder oidOne (some "ready") (some "bob") none).1 = 500) :=
  ⟨C7_setStatus_validation.1 storeWithOrder oidOne (some "bogus") none none (by decide),
   C7_setStatus_validation.2.1 storeWithOrder oidOne (some "cancelled") none none
     oidOne oGood (by decide) (by decide) (by decide) (by decide) (by decide) (by decide),
   C7_setStatus_validation.2.2.1 storeWithOrder oidTwo (some "ready") none none
     (by decide),
   C7_setStatus_validation.2.2.2 storeWithOrder oidOne (some "ready") (some "bob") none
     (by decide) (by decide) (by decide) (by decide) (by decide)⟩

/-- C8: every successfully created order is persisted with status pending and
paymentStatus paid, and each OrderLine snapshot carries the productId, name,
price and quantity exactly as submitted in the request payload. -/
theorem C8_order_snapshot (s : Store) (f : String) (r : CreateOrderReq)
    (o : Order) (s2 : Store) (its : List OrderItemReq)
    (h : createOrder s f r = (.created o, s2)) (hits : r.items = some its) :
    o.status = "pending" ∧ o.paymentStatus = "paid" ∧
    o.items = its.map (fun it =>
      { productId := orderPid it, name := it.name, price := it.price,
        quantity := it.quantity }) ∧
    s2 = { s with orders := s.orders ++ [(f, o)] } := by
  obtain ⟨_, _, _, hs, hp, hitems, _, _, _, hs2⟩ :=
    createOrder_created_inv s f r o s2 h
  rw [hits] at hitems
  simp only [Option.getD_some] at hitems
  exact ⟨hs, hp, hitems, hs2⟩

set_option maxHeartbeats 2000000 in
/-- Witness for C8 at a concrete input. -/
theorem C8_witness :
    oGood.status = "pending" ∧ oGood.paymentStatus = "paid" ∧
    oGood.items = [orderItemLatte].map (fun it =>
      { productId := orderPid it, name := it.name, price := it.price,
        quantity := it.quantity }) ∧
    storeWithOrder = { baseStore with orders := baseStore.orders ++ [(oidOne, oGood)] } :=
  C8_order_snapshot baseStore oidOne reqGood oGood storeWithOrder [orderItemLatte]
    (by decide) rfl

def orderItemBadPid : OrderItemReq :=
  { productId := some "zzz", id := none, name := some "Latte", price := some 7,
    quantity := some 1 }

def reqBadPid : CreateOrderReq :=
  { customerId := some uidA, items := some [orderItemBadPid], totalPrice := some 7,
    orderType := some "restaurant", deliveryAddress := none, tableNumber := some 4,
    email := some "c@x.com", doorPhoto := none }

/-- C9: the claim is false for order creation.  A malformed product id there
does not yield an InvalidReference-class validation failure (400): the
createOrder handler has no well-formedness pre-check, so the findById cast
rejection is caught by the outer catch and surfaces as a 500 server error. -/
theorem C9_counterexample :
    createOrder baseStore oidOne reqBadPid = (.serverError, baseStore) ∧
    CreateOrderResult.statusCode (createOrder baseStore oidOne reqBadPid).1 = 500 := by
  constructor <;> decide

/-- C9 (amended): in cart save, a present but malformed product id yields the
400 invalid-format validation failure before any product lookup — uniformly
in the store, so no lookup result can influence it; in order creation, a
present but malformed product id instead surfaces as a 500 server error from
the storage-layer cast rejection. -/
theorem C9_amended_malformed_ids :
    (∀ (s : Store) (it : CartItemReq) (rest : List CartItemReq),
      strTruthy (jsOrS it.productId it.id) = true →
      isValidObjectId ((jsOrS it.productId it.id).getD "") = false →
      processItems s (it :: rest) =
        .error (.invalidProductIdFormat ((jsOrS it.productId it.id).getD ""))) ∧
    (∀ (s : Store) (it : OrderItemReq) (rest : List OrderItemReq) (v : String),
      orderPid it = some v → isValidObjectId v = false →
      verifyProducts s (it :: rest) = .error .serverError) := by
  constructor
  · intro s it rest h1 h2
    rw [processItems]
    simp [h1, h2]
  · intro s it rest v hv h2
    rw [verifyProducts, hv]
    simp [findProductJs, h2]

def itemBadPid : CartItemReq :=
  { productId := some "zzz", id := none, name := some "Latte", price := some 7,
    quantity := some 1, image := none, description := none, category := none }

/-- Witness for the amended C9 at concrete inputs. -/
theorem C9_amended_witness :
    processItems baseStore [itemBadPid] = .error (.invalidProductIdFormat "zzz") ∧
    verifyProducts baseStore [orderItemBadPid] = .error .serverError := by
  constructor
  · have h := C9_amended_malformed_ids.1 baseStore itemBadPid [] (by decide) (by decide)
    exact h
  · exact C9_amended_malformed_ids.2 baseStore orderItemBadPid [] "zzz" rfl (by decide)

/-- C10: a status update changes nothing but status and the two assignee
fields; an absent or falsy preparedBy or deliveryPersonId retains the stored
assignee, a truthy one overwrites it, and an assignee that is set can never
be reset to null by setStatus. -/
theorem C10_setStatus_frame (s : Store) (oid : String) (st pb dp : Option String)
    (o2 : Order) (s2 : Store) (i : String) (o : Order)
    (h : setStatus s oid st pb dp = (.updated o2, s2))
    (hfind : s.orders.find? (fun p => p.1 == oid) = some (i, o)) :
    o2.customerId = o.customerId ∧ o2.items = o.items ∧
    o2.totalPrice = o.totalPrice ∧ o2.orderType = o.orderType ∧
    o2.deliveryAddress = o.deliveryAddress ∧ o2.tableNumber = o.tableNumber ∧
    o2.paymentStatus = o.paymentStatus ∧ o2.email = o.email ∧
    o2.doorPhoto = o.doorPhoto ∧
    o2.status = st.getD "" ∧
    (¬ strTruthy pb → o2.preparedBy = o.preparedBy) ∧
    (strTruthy pb = true → o2.preparedBy = pb) ∧
    (¬ strTruthy dp → o2.deliveryPersonId = o.deliveryPersonId) ∧
    (strTruthy dp = true → o2.deliveryPersonId = dp) ∧
    (o.preparedBy.isSome = true → o2.preparedBy.isSome = true) ∧
    (o.deliveryPersonId.isSome = true → o2.deliveryPersonId.isSome = true) ∧
    s2 = { s with orders := replaceOrder s.orders oid o2 } := by
  obtain ⟨ho2, hs2⟩ := setStatus_updated_inv s oid st pb dp o2 s2 i o h hfind
  subst ho2
  refine ⟨rfl, rfl, rfl, rfl, rfl, rfl, rfl, rfl, rfl, rfl, ?_, ?_, ?_, ?_, ?_, ?_, hs2⟩
  · intro hn
    simp [hn]
  · intro hp
    simp [hp]
  · intro hn
    simp [hn]
  · intro hp
    simp [hp]
  · intro hsome
    by_cases hpb : strTruthy pb = true
    · obtain ⟨v, hv, hvne⟩ := (strTruthy_iff pb).mp hpb
      have hvt : strTruthy (some v) = true := (strTruthy_iff (some v)).mpr ⟨v, rfl, hvne⟩
      simp [hv, hvt]
    · simp [hpb, hsome]
  · intro hsome
    by_cases hdp : strTruthy dp = true
    · obtain ⟨v, hv, hvne⟩ := (strTruthy_iff dp).mp hdp
      have hvt : strTruthy (some v) = true := (strTruthy_iff (some v)).mpr ⟨v, rfl, hvne⟩
      simp [hv, hvt]
    · simp [hdp, hsome]

def oGoodPreparing : Order :=
  { oGood with status := "preparing", preparedBy := some oidTwo }

set_option maxHeartbeats 2000000 in
/-- Witness for C10 at a concrete input: updating status to preparing with a
preparedBy assignee and no deliveryPersonId. -/
theorem C10_witness :
    oGoodPreparing.customerId = oGood.customerId ∧
    oGoodPreparing.items = oGood.items ∧
    oGoodPreparing.totalPrice = oGood.totalPrice ∧
    oGoodPreparing.orderType = oGood.orderType ∧
    oGoodPreparing.deliveryAddress = oGood.deliveryAddress ∧
    oGoodPreparing.tableNumber = oGood.tableNumber ∧
    oGoodPreparing.paymentStatus = oGood.paymentStatus ∧
    oGoodPreparing.email = oGood.email ∧
    oGoodPreparing.doorPhoto = oGood.doorPhoto ∧
    oGoodPreparing.status = (some "preparing").getD "" ∧
    (¬ strTruthy (some oidTwo) → oGoodPreparing.preparedBy = oGood.preparedBy) ∧
    (strTruthy (some oidTwo) = true → oGoodPreparing.preparedBy = some oidTwo) ∧
    (¬ strTruthy none → oGoodPreparing.deliveryPersonId = oGood.deliveryPersonId) ∧
    (strTruthy none = true → oGoodPreparing.deliveryPersonId = none) ∧
    (oGood.preparedBy.isSome = true → oGoodPreparing.preparedBy.isSome = true) ∧
    (oGood.deliveryPersonId.isSome = true → oGoodPreparing.deliveryPersonId.isSome = true) ∧
    { storeWithOrder with
        orders := replaceOrder storeWithOrder.orders oidOne oGoodPreparing } =
      { storeWithOrder with
        orders := replaceOrder storeWithOrder.orders oidOne oGoodPreparing } :=
  C10_setStatus_frame storeWithOrder oidOne (some "preparing") (some oidTwo) none
    oGoodPreparing
    { storeWithOrder with
        orders := replaceOrder storeWithOrder.orders oidOne oGoodPreparing }
    oidOne oGood (by decide) (by decide)
